import Mathlib

/-!
Verification model of the `cap` configurable HTTP stub server.

Each definition below is a shallow embedding of one Python function or
class of the repository (file and symbol named in its doc comment).
Machine-level details that the claims do not depend on (actual file IO,
process scheduling, non-UTF-8 codecs, unicode word characters in the URL
regex) are modelled by explicit parameters or restricted to the ASCII
fragment, as noted at each definition.
-/

namespace Cap

/-- `constants.Schema`: string enum with values "http" and "https". -/
inductive Schema where
  | HTTP
  | HTTPS
deriving DecidableEq, Repr

/-- The `value` of a `Schema` member. -/
def Schema.value : Schema → String
  | .HTTP => "http"
  | .HTTPS => "https"

/-- `Schema.get_key_by_value`: first member whose value equals the string. -/
def Schema.get_key_by_value (v : String) : Option Schema :=
  if v = "http" then some .HTTP
  else if v = "https" then some .HTTPS
  else none

/-- `constants.BodyType`: string enum with values "text", "bytes", "auto". -/
inductive BodyType where
  | TEXT
  | BYTES
  | AUTO
deriving DecidableEq, Repr

/-- `constants.RequestMethod`: string enum of the nine HTTP verbs. -/
inductive RequestMethod where
  | GET | POST | PUT | PATCH | DELETE | OPTIONS | HEAD | TRACE | CONNECT
deriving DecidableEq, Repr

/-- The `value` of a `RequestMethod` member. -/
def RequestMethod.value : RequestMethod → String
  | .GET => "GET"
  | .POST => "POST"
  | .PUT => "PUT"
  | .PATCH => "PATCH"
  | .DELETE => "DELETE"
  | .OPTIONS => "OPTIONS"
  | .HEAD => "HEAD"
  | .TRACE => "TRACE"
  | .CONNECT => "CONNECT"

/-! ## The base-url pattern

`model/config_file.get_base_url_pattern` compiles the regex
`^((\w+)://)?([\w.]+)(:(\d{1,5}))?((/\w+)*)$`.  We model `\w` on the
ASCII fragment (letter, digit or underscore) and `\d` as an ASCII digit.
Because the character classes of neighbouring groups are disjoint at
every boundary (`:`, `/` and `.` are not in `\w`), the greedy
backtracking match of the Python `re` engine coincides with the
deterministic longest-munch parse implemented here; a port of six or
more digits makes the whole pattern fail (no split of the digit run can
be completed by `((/\w+)*)$`). -/

/-- Python `str.lower()` as a character-wise map (equal to
`String.toLower`, but stated through the character list so that concrete
instances reduce). -/
def lowerStr (s : String) : String :=
  String.mk (s.toList.map Char.toLower)

/-- ASCII model of the regex class `\w`. -/
def isWordChar (c : Char) : Bool :=
  c.isAlphanum || c = '_'

/-- The capture groups of a successful match of the base-url pattern:
group 2 (scheme word), group 3 (host), group 5 (port digits) and
group 6 (the base mapping, possibly empty). -/
structure BaseUrlMatch where
  schemaGroup : Option String
  hostGroup : String
  portGroup : Option String
  mappingGroup : String
deriving DecidableEq, Repr

/-- States of the segment scanner for `((/\w+)*)$`: at a segment
boundary (end acceptable), right after a slash (a word character is
required), or inside a segment (end, word character or new slash all
acceptable). -/
inductive MapScanState where
  | boundary
  | needWord
  | inWord
deriving DecidableEq

/-- Scanner for `((/\w+)*)$`. -/
def matchMappingAux : List Char → MapScanState → Bool
  | [], st => decide (st ≠ .needWord)
  | c :: rest, .boundary =>
      if c = '/' then matchMappingAux rest .needWord else false
  | c :: rest, .needWord =>
      if isWordChar c then matchMappingAux rest .inWord else false
  | c :: rest, .inWord =>
      if isWordChar c then matchMappingAux rest .inWord
      else if c = '/' then matchMappingAux rest .needWord
      else false

/-- Matches `((/\w+)*)$`: a sequence of segments, each a slash followed
by one or more word characters. -/
def matchMappingChars (l : List Char) : Bool :=
  matchMappingAux l .boundary

/-- `get_base_url_pattern().match(url)`: the groups of the anchored match,
or `none` when the pattern does not match. -/
def matchBaseUrl (url : String) : Option BaseUrlMatch :=
  let cs := url.toList
  -- optional `((\w+)://)?`
  let w := cs.takeWhile isWordChar
  let (schemaGroup, rest) :=
    if w ≠ [] ∧ (cs.drop w.length).take 3 = [':', '/', '/'] then
      (some (String.mk w), cs.drop (w.length + 3))
    else
      (none, cs)
  -- `([\w.]+)`
  let h := rest.takeWhile (fun c => isWordChar c || c = '.')
  if h = [] then none
  else
    let rest2 := rest.drop h.length
    -- optional `(:(\d{1,5}))?`
    let step2 : Option (Option String × List Char) :=
      match rest2 with
      | ':' :: tl =>
          let ds := tl.takeWhile Char.isDigit
          if ds = [] then none
          else if 5 < ds.length then none
          else some (some (String.mk ds), tl.drop ds.length)
      | other => some (none, other)
    match step2 with
    | none => none
    | some (portGroup, rest3) =>
        if matchMappingChars rest3 then
          some ⟨schemaGroup, String.mk h, portGroup, String.mk rest3⟩
        else
          none

/-- Numeric value of a digit string, as Python `int` on the matched
`\d{1,5}` group. -/
def digitsToNat (s : String) : Nat :=
  s.toList.foldl (fun n c => 10 * n + (c.toNat - '0'.toNat)) 0

/-- Result of a Python function that either returns a value or raises an
error with a message. -/
inductive PyResult (α : Type) where
  | ok (val : α)
  | error (msg : String)
deriving DecidableEq, Repr

/-- `model/config_file.check_base_url`: rejects a url that does not match
the pattern, has an unknown scheme, or has a port outside 0-65535;
otherwise returns the url unchanged. -/
def check_base_url (url : String) : PyResult String :=
  match matchBaseUrl url with
  | none => .error "Invalid server base url"
  | some m =>
      let schemaOk : Bool :=
        match m.schemaGroup with
        | none => true
        | some raw => (Schema.get_key_by_value (lowerStr raw)).isSome
      if !schemaOk then .error "Invalid schema value"
      else
        match m.portGroup with
        | none => .ok url
        | some ds =>
            if digitsToNat ds ≤ 65535 then .ok url
            else .error "Port value is not from range 0-65535"

/-! ## Server configuration -/

/-- `model/config_file.ServerConfig` (the fields the claims depend on;
`alias` and `ssl_config` are omitted, no claim mentions them).
`requests_ids` is declared as a pydantic `Set[str]`; we keep the
declaration-order list here and quantify over its possible set
enumerations where iteration order matters. -/
structure ServerConfig where
  base_url : String := "http://0.0.0.0:80/api"
  requests_ids : List String := []
  default_response_id : String := "default"
deriving DecidableEq, Repr

/-- `ServerConfig.host` (group 3 of the url match).  The source would
fail on an invalid url; validation guarantees a match, modelled by
`Option`. -/
def ServerConfig.host (s : ServerConfig) : Option String :=
  (matchBaseUrl s.base_url).map (·.hostGroup)

/-- `ServerConfig.port`: group 5 of the url match, defaulting to 80 when
the port group is absent. -/
def ServerConfig.port (s : ServerConfig) : Option Nat :=
  (matchBaseUrl s.base_url).map fun m =>
    match m.portGroup with
    | none => 80
    | some ds => digitsToNat ds

/-- `ServerConfig.schema`: group 2 of the url match mapped through
`Schema.get_key_by_value`, defaulting to `Schema.HTTP` when the scheme
group is absent. -/
def ServerConfig.schema (s : ServerConfig) : Option Schema :=
  (matchBaseUrl s.base_url).bind fun m =>
    match m.schemaGroup with
    | none => some Schema.HTTP
    | some raw => Schema.get_key_by_value (lowerStr raw)

/-- `ServerConfig.base_mapping`: group 6 of the url match ("" when the
group is empty). -/
def ServerConfig.base_mapping (s : ServerConfig) : String :=
  ((matchBaseUrl s.base_url).map (·.mappingGroup)).getD ""

/-! ## HTTP bodies -/

/-- The `data` field of `HttpBody`: pydantic `Union[str, bytes]`. -/
inductive HttpData where
  | str (s : String)
  | bytes (b : List UInt8)
deriving DecidableEq, Repr

/-- `model/config_file.HttpBody`. -/
structure HttpBody where
  file : Option String := none
  data : HttpData := .bytes []
  data_encoding : String := "utf-8"
deriving DecidableEq, Repr

/-- The UTF-8 encoding of a string as a byte list (`String.toUTF8`). -/
def utf8Bytes (s : String) : List UInt8 :=
  s.toUTF8.data.toList

/-- Python `str.encode(encoding)`.  Only the utf-8 codec is modelled
concretely (the claims touch no other); any other codec name is
modelled as a failure. -/
def encodeStr (s : String) (encoding : String) : Option (List UInt8) :=
  if encoding = "utf-8" then some (utf8Bytes s) else none

/-- `HttpBody.bytes`: reads the file when `file` is set, else encodes
string data with `data_encoding`, else returns raw bytes; the bare
`except:` turns any failure (missing file, codec error) into an empty
body.  File contents are supplied by the explicit filesystem map `fs`. -/
def HttpBody.bytes (body : HttpBody) (fs : String → Option (List UInt8)) :
    List UInt8 :=
  match body.file with
  | some f => (fs f).getD []
  | none =>
      match body.data with
      | .str s => (encodeStr s body.data_encoding).getD []
      | .bytes b => b

/-! ## Request and response configuration -/

/-- `model/config_file.RequestConfig`. -/
structure RequestConfig where
  mapping : String := "/"
  method : RequestMethod := .GET
  parameters : Option (List (String × String)) := none
  body : Option HttpBody := none
  response_id : String := "default"
deriving DecidableEq, Repr

/-- `model/config_file.RequestLogConfig` (the fields the logging claims
depend on; file/console sink switches are orthogonal to the body
rendering modelled below). -/
structure RequestLogConfig where
  body_type : Option BodyType := none
  body_encoding : Option String := none
deriving DecidableEq, Repr

/-- `model/config_file.ResponseConfig`. -/
structure ResponseConfig where
  headers : List (String × String) := []
  body : HttpBody := {}
  status : Nat := 200
  request_log_config : RequestLogConfig := {}
deriving DecidableEq, Repr

/-- `model/config_file.Config`: the root of the configuration.  Python
dicts are modelled as association lists without duplicate keys. -/
structure Config where
  servers : List ServerConfig := [{}]
  requests : List (String × RequestConfig) := []
  responses : List (String × ResponseConfig) := [("default", {})]
deriving DecidableEq, Repr

/-- Exact-key lookup in a Python dict modelled as an association list. -/
def dictGet {α : Type} (d : List (String × α)) (k : String) : Option α :=
  match d with
  | [] => none
  | (k', v) :: rest => if k' = k then some v else dictGet rest k

/-- The keys of a dict. -/
def dictKeys {α : Type} (d : List (String × α)) : List String :=
  d.map (·.1)

/-- Python `d[k] = v`: replaces the value in place when the exact key is
present, appends a new entry otherwise. -/
def dictSet {α : Type} (d : List (String × α)) (k : String) (v : α) :
    List (String × α) :=
  match d with
  | [] => [(k, v)]
  | (k', v') :: rest =>
      if k' = k then (k', v) :: rest else (k', v') :: dictSet rest k v

/-- Python dict equality `d1 == d2`: same key set, equal values;
insertion order is ignored. -/
def dictEq {α : Type} [DecidableEq α]
    (d1 d2 : List (String × α)) : Bool :=
  d1.all (fun kv => dictGet d2 kv.1 = some kv.2) &&
    d2.all (fun kv => dictGet d1 kv.1 = some kv.2)

/-! ## The inbound request and the matcher -/

/-- The slice of a starlette `Request` that the matcher and logger read:
method string, full path (`request.scope["path"]`), query parameters and
raw body bytes. -/
structure InboundRequest where
  method : String := "GET"
  path : String := "/"
  query_params : List (String × String) := []
  body_bytes : List UInt8 := []
deriving DecidableEq, Repr

/-- `core/base.request_params_to_dict`: the query parameters as a dict. -/
def request_params_to_dict (r : InboundRequest) : List (String × String) :=
  r.query_params

/-- `core/process_middleware.is_request_fit`.  The four checks in source
order: method equality, path equality against base mapping + rule
mapping, dict equality of declared parameters against the inbound
parameter dict, and the body check.  In the source the body check reads
`request.body() != request_config.body.bytes`: `request.body()` is an
unawaited coroutine object, never equal to a bytes value, so the
condition holds whenever `request_config.body is not None` and any rule
that declares a body fails the check. -/
def is_request_fit (request : InboundRequest)
    (request_config : RequestConfig) (server_config : ServerConfig) :
    Bool :=
  if request.method ≠ request_config.method.value then false
  else if request.path ≠
      server_config.base_mapping ++ request_config.mapping then false
  else if (match request_config.parameters with
           | some ps => !dictEq ps (request_params_to_dict request)
           | none => false) then false
  else if request_config.body.isSome then false
  else true

/-- The rule list of one server as built by
`core/process_middleware.create_server_routes`: the ids produced by
iterating the `requests_ids` set, each resolved through
`config.requests`.  `enum` is the iteration order of the set, an
arbitrary enumeration of the declared ids. -/
def buildServerRequests (enum : List String)
    (requests : List (String × RequestConfig)) : List RequestConfig :=
  enum.filterMap (fun id => dictGet requests id)

/-- The loop of `core/process_middleware.request_processor`: the first
rule in list order that fits the request, `none` when no rule fits (the
source then raises an `HTTPException` that resolves to the server's
default response). -/
def allocateRequest (server_requests : List RequestConfig)
    (request : InboundRequest) (server_config : ServerConfig) :
    Option RequestConfig :=
  server_requests.find? (fun rc => is_request_fit request rc server_config)

/-- `enum` enumerates the Python set built from the declared id list
`declared`: each distinct declared id exactly once, in an order the set
iteration chooses (Python string hashing is seeded per run, so no
particular order is guaranteed). -/
def IsSetEnumeration (declared enum : List String) : Prop :=
  enum.Perm declared.dedup

instance (declared enum : List String) :
    Decidable (IsSetEnumeration declared enum) := by
  unfold IsSetEnumeration; infer_instance

/-! ## Cross-reference validation -/

/-- `model/config_file.Config.validate_request_response_ids` as a
boolean: `true` when the method returns normally, `false` when it raises
a `ValueError`.  The source collects the referenced ids into sets and
raises when a set difference is non-empty; a difference is empty exactly
when every collected id occurs among the keys, which is the form used
here. -/
def validate_request_response_ids (c : Config) : Bool :=
  let server_requests := (c.servers.map (·.requests_ids)).flatten
  let request_responses :=
    c.servers.map (·.default_response_id) ++
      c.requests.map (fun p => p.2.response_id)
  server_requests.all (fun id => (dictKeys c.requests).contains id) &&
    request_responses.all (fun id => (dictKeys c.responses).contains id)

/-- The invariant the spec states: every request id referenced by a
server exists in the requests map, and every response id referenced by a
server default or by a request exists in the responses map. -/
def RefInvariant (c : Config) : Prop :=
  (∀ s ∈ c.servers, ∀ id ∈ s.requests_ids, id ∈ dictKeys c.requests) ∧
  (∀ s ∈ c.servers, s.default_response_id ∈ dictKeys c.responses) ∧
  (∀ p ∈ c.requests, p.2.response_id ∈ dictKeys c.responses)

instance (c : Config) : Decidable (RefInvariant c) := by
  unfold RefInvariant; infer_instance

/-! ## The orchestrator (`main.main`)

The observable actions of the startup path (lines 77-88) and of one
reload cycle (lines 90-115) are modelled as event lists in program
order.  The branch structure follows the source: on a failed
`parse_config` the reload path logs a warning, leaves `config = None`,
and then still reaches the teardown, because the guard on line 105 reads
`if config_loader is not None:` — `config_loader` was bound on line 77
and is never `None`, so the guard does not depend on the parse outcome.
With `config = None`, line 109 (`config.request_log_config`) raises an
`AttributeError`, which escapes to the outer `except Exception` handler
(critical log) and the `finally` block (terminate all). -/

/-- Observable actions of `main.main`. -/
inductive MainEvent where
  | parseConfig
  | logParseWarning
  | terminateAll
  | waitNotRunning
  | setLogConfig
  | buildProcesses
  | assignProcesses
  | startAll
  | attributeError
  | logCritical
  | finallyTerminateAll
deriving DecidableEq, Repr

/-- The event trace of one reload cycle of `main.main` (lines 98-115
plus the surrounding handlers), as a function of whether `parse_config`
succeeded on the re-read file. -/
def reloadCycle (parseOk : Bool) : List MainEvent :=
  [.parseConfig] ++
    (if parseOk then [] else [.logParseWarning]) ++
    [.terminateAll, .waitNotRunning] ++
    (if parseOk then
      [.setLogConfig, .buildProcesses, .assignProcesses, .startAll]
    else
      [.attributeError, .logCritical, .finallyTerminateAll])

/-- The event trace of the startup path of `main.main` (lines 77-88) for
a config whose decode succeeded, as a function of the id validation
outcome: `parse_config` raises on a validation failure, reaching the
critical log with no controller constructed, so nothing is started. -/
def initSequence (c : Config) : List MainEvent :=
  if validate_request_response_ids c then
    [.parseConfig, .buildProcesses, .assignProcesses, .startAll]
  else
    [.parseConfig, .logCritical]

/-! ## The config loader (`core/config_loader.ConfigFileLoader`) -/

/-- The mutable state of `ConfigFileLoader`.  Time is abstract (`Nat`
instants); the content hash is computed by an arbitrary function passed
to `do_load`, since the claims only need that equal content hashes
equal. -/
structure LoaderState where
  lastRead : Option Nat := none
  readInterval : Nat := 3
  cachedValue : Option (List UInt8) := none
  fileHash : Option String := none
  isChanged : Bool := false
deriving DecidableEq, Repr

/-- The guard of `ConfigFileLoader.do_load`, keeping the source's
operator precedence:
`(not is_changed and last_read is None) or (interval elapsed)`.  (With
`last_read = None` the second disjunct would raise a `TypeError` in
Python; that state is unreachable because `is_changed` is only ever set
by a completed read, and it is modelled as `false` here.) -/
def loadDue (s : LoaderState) (now : Nat) : Bool :=
  (!s.isChanged && s.lastRead.isNone) ||
    (match s.lastRead with
     | some t => decide (t + s.readInterval ≤ now)
     | none => false)

/-- `ConfigFileLoader.do_load` at time `now` with current file content
`content`: when due, read, hash, and set the dirty flag exactly when the
hash moved. -/
def do_load (calcHash : List UInt8 → String) (s : LoaderState)
    (now : Nat) (content : List UInt8) : LoaderState :=
  if loadDue s now then
    let s1 := { s with lastRead := some now, cachedValue := some content }
    let hv := calcHash content
    if s1.fileHash ≠ some hv then
      { s1 with isChanged := true, fileHash := some hv }
    else s1
  else s

/-- Number of steps in a sequence of `do_load` calls (at the given
instants, all reading the same `content`) at which the dirty flag goes
from unset to set. -/
def flipCount (calcHash : List UInt8 → String) (s : LoaderState)
    (times : List Nat) (content : List UInt8) : Nat :=
  match times with
  | [] => 0
  | t :: ts =>
      let s' := do_load calcHash s t content
      (if !s.isChanged && s'.isChanged then 1 else 0) +
        flipCount calcHash s' ts content

/-! ## The request-log body pipeline (`core/logging/requests.py`) -/

/-- Substring containment on strings. -/
def containsSubstr (sub s : String) : Bool :=
  (List.range (s.toList.length + 1)).any
    (fun i => (s.toList.drop i).take sub.toList.length = sub.toList)

/-- The substring set of `RequestLogger._mime_type_to_body_type`.  The
source's set literal is missing a comma after `"text/"`: the adjacent
literals `"text/" "application/json"` concatenate into the single
string `"text/application/json"`, so the set has three elements. -/
def textSubstrings : List String :=
  ["text/application/json",
   "application/x-empty",
   "application/x-www-form-urlencoded"]

/-- `RequestLogger._mime_type_to_body_type`: TEXT when any member of the
substring set occurs in the media type, BYTES otherwise. -/
def mimeTypeToBodyType (media_type : String) : BodyType :=
  if textSubstrings.any (fun sub => containsSubstr sub media_type) then
    .TEXT
  else
    .BYTES

/-- A logged body field: either the body bytes decoded with an encoding,
or their hexadecimal rendering. -/
inductive LoggedBody where
  | text (bodyBytes : List UInt8) (encoding : String)
  | hexString (bodyBytes : List UInt8)
deriving DecidableEq, Repr

/-- Effective body type of `RequestLogger.log_request` lines 178-188:
the response-scoped override wins over the global value when set; a
missing or `auto` value is classified from the content-type header when
present, else from the sniffed MIME type of the raw bytes (the sniffing
itself is external, supplied here as `sniffedMime`). -/
def resolveLoggedBodyType (globalCfg ruleCfg : RequestLogConfig)
    (contentType : Option String) (sniffedMime : String) : BodyType :=
  let bt := match ruleCfg.body_type with
    | some b => some b
    | none => globalCfg.body_type
  match bt with
  | none => mimeTypeToBodyType (contentType.getD sniffedMime)
  | some .AUTO => mimeTypeToBodyType (contentType.getD sniffedMime)
  | some b => b

/-- The branch condition of `RequestLogger.log_request` line 189.  The
source reads `if body_type.TEXT:`: it looks up the enum member `TEXT`
(the string "text") through the instance, and a non-empty string is
truthy, so the condition is true for every value of `body_type`. -/
def bodyTypeTextTruthy (_bt : BodyType) : Bool :=
  true

/-- Effective encoding of `RequestLogger.log_request` lines 190-194:
override over global, defaulting to utf-8. -/
def effectiveEncoding (globalCfg ruleCfg : RequestLogConfig) : String :=
  let e := match ruleCfg.body_encoding with
    | some x => some x
    | none => globalCfg.body_encoding
  e.getD "utf-8"

/-- The rendering step of `RequestLogger.log_request` lines 189-199. -/
def renderLoggedBody (bt : BodyType) (bodyBytes : List UInt8)
    (effEncoding : String) : LoggedBody :=
  if bodyTypeTextTruthy bt then .text bodyBytes effEncoding
  else .hexString bodyBytes

/-- The logged body field for a request not captured to a file:
classification followed by rendering. -/
def logRequestBody (globalCfg ruleCfg : RequestLogConfig)
    (contentType : Option String) (sniffedMime : String)
    (bodyBytes : List UInt8) : LoggedBody :=
  renderLoggedBody
    (resolveLoggedBodyType globalCfg ruleCfg contentType sniffedMime)
    bodyBytes
    (effectiveEncoding globalCfg ruleCfg)

/-! ## Response headers (`hooks/responses.RawResponse`) -/

/-- `RawResponse.init_headers`: sets `headers["content-length"]` to the
byte length of the final body, then emits the raw header pairs with
lower-cased names (the latin-1 byte encoding of names and values is left
as strings). -/
def init_headers (bodyBytes : List UInt8)
    (headers : List (String × String)) : List (String × String) :=
  let withCl :=
    dictSet headers "content-length" (toString bodyBytes.length)
  withCl.map (fun kv => (lowerStr kv.1, kv.2))

/-! ## Claim theorems -/

/-- C10: for every base url matched by the pattern, the scheme and port
groups are optional: with no scheme group the derived schema is HTTP,
with no port group the derived port is 80, and a url with neither group
passes `check_base_url` unchanged. -/
theorem base_url_scheme_port_optional (url : String) (m : BaseUrlMatch)
    (hm : matchBaseUrl url = some m) :
    (m.schemaGroup = none →
      ServerConfig.schema { base_url := url } = some Schema.HTTP) ∧
    (m.portGroup = none →
      ServerConfig.port { base_url := url } = some 80) ∧
    (m.schemaGroup = none → m.portGroup = none →
      check_base_url url = .ok url) := by
  refine ⟨fun hs => ?_, fun hp => ?_, fun hs hp => ?_⟩
  · simp [ServerConfig.schema, hm, hs]
  · simp [ServerConfig.port, hm, hp]
  · simp [check_base_url, hm, hs, hp]

/-- C10 witness: `0.0.0.0/api` has neither scheme nor port group, is
accepted, and derives schema HTTP and port 80. -/
theorem base_url_scheme_port_optional_witness :
    matchBaseUrl "0.0.0.0/api" = some ⟨none, "0.0.0.0", none, "/api"⟩ ∧
    check_base_url "0.0.0.0/api" = .ok "0.0.0.0/api" ∧
    ServerConfig.schema { base_url := "0.0.0.0/api" } = some Schema.HTTP ∧
    ServerConfig.port { base_url := "0.0.0.0/api" } = some 80 := by
  have h := base_url_scheme_port_optional "0.0.0.0/api"
    ⟨none, "0.0.0.0", none, "/api"⟩ (by decide)
  exact ⟨by decide, h.2.2 rfl rfl, h.1 rfl, h.2.1 rfl⟩

/-- C5: `validate_request_response_ids` succeeds exactly when every
request id referenced by a server exists in the requests map and every
response id referenced by a request or a server default exists in the
responses map; a config violating the invariant never reaches
`startAll` on the startup path. -/
theorem validate_ids_iff_invariant (c : Config) :
    (validate_request_response_ids c = true ↔ RefInvariant c) ∧
    (¬ RefInvariant c → MainEvent.startAll ∉ initSequence c) := by
  have hiff : validate_request_response_ids c = true ↔ RefInvariant c := by
    unfold validate_request_response_ids RefInvariant
    simp only [Bool.and_eq_true, List.all_eq_true, List.mem_flatten,
      List.mem_map, List.mem_append, List.contains_eq_any_beq,
      List.any_eq_true, beq_iff_eq]
    constructor
    · rintro ⟨h1, h2⟩
      refine ⟨fun s hs id hid => ?_, fun s hs => ?_, fun p hp => ?_⟩
      · obtain ⟨x, hx, hxx⟩ := h1 id ⟨_, ⟨s, hs, rfl⟩, hid⟩
        exact hxx ▸ hx
      · obtain ⟨x, hx, hxx⟩ := h2 _ (Or.inl ⟨s, hs, rfl⟩)
        exact hxx ▸ hx
      · obtain ⟨x, hx, hxx⟩ := h2 _ (Or.inr ⟨p, hp, rfl⟩)
        exact hxx ▸ hx
    · rintro ⟨h1, h2, h3⟩
      constructor
      · rintro id ⟨_, ⟨s, hs, rfl⟩, hid⟩
        exact ⟨id, h1 s hs id hid, rfl⟩
      · rintro id (⟨s, hs, rfl⟩ | ⟨p, hp, rfl⟩)
        · exact ⟨_, h2 s hs, rfl⟩
        · exact ⟨_, h3 p hp, rfl⟩
  refine ⟨hiff, fun hinv => ?_⟩
  have hv : validate_request_response_ids c = false := by
    cases hval : validate_request_response_ids c with
    | true => exact absurd (hiff.mp hval) hinv
    | false => rfl
  simp [initSequence, hv]

/-- C5 witness: a config whose only server references the request id
"missing" violates the invariant and its startup trace does not start
any listener. -/
theorem validate_ids_iff_invariant_witness :
    validate_request_response_ids
      { servers := [{ requests_ids := ["missing"] }] } = false ∧
    MainEvent.startAll ∉
      initSequence { servers := [{ requests_ids := ["missing"] }] } := by
  have h := validate_ids_iff_invariant
    { servers := [{ requests_ids := ["missing"] }] }
  refine ⟨by decide, h.2 (by decide)⟩

/-- C6: in the trace of a successful reload cycle, the old listener set
is terminated and confirmed stopped (the busy-wait observes not-running)
strictly before the new generation is constructed and before it is
started. -/
theorem reload_stop_before_start :
    MainEvent.terminateAll ∈ reloadCycle true ∧
    MainEvent.waitNotRunning ∈ reloadCycle true ∧
    MainEvent.buildProcesses ∈ reloadCycle true ∧
    MainEvent.startAll ∈ reloadCycle true ∧
    (reloadCycle true).indexOf MainEvent.terminateAll <
      (reloadCycle true).indexOf MainEvent.waitNotRunning ∧
    (reloadCycle true).indexOf MainEvent.waitNotRunning <
      (reloadCycle true).indexOf MainEvent.buildProcesses ∧
    (reloadCycle true).indexOf MainEvent.buildProcesses <
      (reloadCycle true).indexOf MainEvent.startAll := by
  decide

/-- C3: on a reload cycle whose decode or validation fails, the source
still terminates the whole running listener set (the guard on
`main.py` line 105 tests `config_loader`, not the freshly parsed
`config`), then raises an `AttributeError` on `config.request_log_config`
with `config = None`; no listener of any generation is running or
started afterwards.  This contradicts the claim that the running
listener set stays up, so the claim records a code bug (the spec is the
evident intent). -/
theorem reload_parse_failure_tears_down :
    MainEvent.terminateAll ∈ reloadCycle false ∧
    MainEvent.attributeError ∈ reloadCycle false ∧
    MainEvent.logCritical ∈ reloadCycle false ∧
    MainEvent.startAll ∉ reloadCycle false := by
  decide

/-- A `do_load` step whose content hashes to the stored hash changes
neither the dirty flag nor the stored hash. -/
theorem do_load_stable (calcHash : List UInt8 → String) (s : LoaderState)
    (now : Nat) (content : List UInt8)
    (h : s.fileHash = some (calcHash content)) :
    (do_load calcHash s now content).isChanged = s.isChanged ∧
    (do_load calcHash s now content).fileHash = s.fileHash := by
  unfold do_load
  by_cases hdue : loadDue s now = true
  · rw [if_pos hdue]
    simp [h]
  · rw [if_neg hdue]
    exact ⟨rfl, rfl⟩

/-- A `do_load` step that alters the dirty flag stores the hash of the
content it read. -/
theorem do_load_flip_updates_hash (calcHash : List UInt8 → String)
    (s : LoaderState) (now : Nat) (content : List UInt8)
    (h : (do_load calcHash s now content).isChanged ≠ s.isChanged) :
    (do_load calcHash s now content).fileHash = some (calcHash content) := by
  unfold do_load at *
  by_cases hdue : loadDue s now = true
  · rw [if_pos hdue] at h ⊢
    by_cases hh : s.fileHash = some (calcHash content)
    · simp [hh] at h
    · simp [hh]
  · rw [if_neg hdue] at h
    exact absurd rfl h

/-- With the stored hash already equal to the content hash, no step of a
`do_load` sequence over that content sets the dirty flag. -/
theorem flipCount_eq_zero (calcHash : List UInt8 → String)
    (s : LoaderState) (times : List Nat) (content : List UInt8)
    (h : s.fileHash = some (calcHash content)) :
    flipCount calcHash s times content = 0 := by
  induction times generalizing s with
  | nil => rfl
  | cons t ts ih =>
      have hs := do_load_stable calcHash s t content h
      show (if (!s.isChanged &&
            (do_load calcHash s t content).isChanged) = true then 1 else 0) +
          flipCount calcHash (do_load calcHash s t content) ts content = 0
      rw [hs.1, ih _ (hs.2.trans h)]
      cases hsc : s.isChanged <;> simp [hsc]

/-- C9: over any sequence of `do_load` polls during which the file
content does not change, the dirty flag goes from unset to set at most
once, and a poll whose content hashes to the already-stored hash leaves
the dirty flag exactly as it was (re-reading unchanged bytes never
triggers another reload). -/
theorem config_loader_dirty_at_most_once (calcHash : List UInt8 → String)
    (s : LoaderState) (times : List Nat) (content : List UInt8) :
    flipCount calcHash s times content ≤ 1 ∧
    (s.fileHash = some (calcHash content) →
      ∀ now, (do_load calcHash s now content).isChanged = s.isChanged) := by
  refine ⟨?_, fun h now => (do_load_stable calcHash s now content h).1⟩
  induction times generalizing s with
  | nil => exact Nat.zero_le 1
  | cons t ts ih =>
      show (if (!s.isChanged &&
            (do_load calcHash s t content).isChanged) = true then 1 else 0) +
          flipCount calcHash (do_load calcHash s t content) ts content ≤ 1
      by_cases hflip :
          (!s.isChanged && (do_load calcHash s t content).isChanged) = true
      · have hne : (do_load calcHash s t content).isChanged ≠ s.isChanged := by
          have h1 : s.isChanged = false := by
            have := (Bool.and_eq_true _ _ |>.mp hflip).1
            simpa using this
          have h2 := (Bool.and_eq_true _ _ |>.mp hflip).2
          simp [h1, h2]
        have hhash := do_load_flip_updates_hash calcHash s t content hne
        rw [if_pos hflip, flipCount_eq_zero calcHash _ ts content hhash]
      · rw [if_neg hflip]
        simpa using ih (do_load calcHash s t content)

/-- C9 witness: a loader whose stored hash matches the content keeps the
dirty flag unset across a concrete poll sequence. -/
theorem config_loader_dirty_at_most_once_witness :
    flipCount (fun _ => "h") { fileHash := some "h" } [0, 3, 6] [] ≤ 1 ∧
    (do_load (fun _ => "h") { fileHash := some "h" } 5 []).isChanged =
      LoaderState.isChanged { fileHash := some "h" } := by
  have h := config_loader_dirty_at_most_once (fun _ => "h")
    { fileHash := some "h" } [0, 3, 6] []
  exact ⟨h.1, h.2 rfl 5⟩

/-- C7: the logged body of a request is never a hexadecimal string.  The
branch on line 189 of `core/logging/requests.py` reads
`if body_type.TEXT:`, which looks up the member string "text" through
the instance and is truthy for every body type, so even a body whose
effective type is BYTES is logged as decoded text; additionally the
missing comma in the substring set makes `application/json` classify as
BYTES rather than TEXT.  Both contradict the claimed TEXT/BYTES
rendering split, so the claim records a code bug (its scenario and the
spec describe the evident intent). -/
theorem logged_body_never_hex :
    mimeTypeToBodyType "application/json" = BodyType.BYTES ∧
    logRequestBody
      { body_type := some BodyType.AUTO, body_encoding := some "utf-8" }
      { body_type := some BodyType.BYTES, body_encoding := none }
      none "application/octet-stream" [104, 105] =
      LoggedBody.text [104, 105] "utf-8" ∧
    LoggedBody.text [104, 105] "utf-8" ≠ LoggedBody.hexString [104, 105] ∧
    (∀ bt bodyBytes encoding,
      renderLoggedBody bt bodyBytes encoding ≠
        LoggedBody.hexString bodyBytes) := by
  refine ⟨by decide, by decide, by decide, fun bt bodyBytes encoding => ?_⟩
  simp [renderLoggedBody, bodyTypeTextTruthy]

/-- C8 counterexample: a response configured with the header
`Content-Length: 999` and a three-byte body renders raw headers in which
the first (and a distinct) `content-length` entry is "999", not "3":
`init_headers` overwrites only the exactly-lower-cased dict key, and the
differently-cased configured key survives the final lower-casing as a
separate, earlier entry.  The claim that the content-length header value
always equals the body byte length fails on this input. -/
theorem content_length_counterexample :
    init_headers [97, 98, 99] [("Content-Length", "999")] =
      [("content-length", "999"), ("content-length", "3")] ∧
    dictGet (init_headers [97, 98, 99] [("Content-Length", "999")])
      "content-length" = some "999" ∧
    ("999" : String) ≠ toString ([97, 98, 99] : List UInt8).length := by
  refine ⟨by decide, by decide, by decide⟩

/-- Lower-casing fixes the literal key `init_headers` writes. -/
theorem lowerStr_content_length :
    lowerStr "content-length" = "content-length" := by
  decide

/-- The raw headers produced by `init_headers` contain the
content-length entry it writes. -/
theorem mem_init_headers (bodyBytes : List UInt8)
    (headers : List (String × String)) :
    ("content-length", toString bodyBytes.length) ∈
      init_headers bodyBytes headers := by
  unfold init_headers
  induction headers with
  | nil => simp [dictSet, lowerStr_content_length]
  | cons kv rest ih =>
      by_cases hk : kv.1 = "content-length"
      · simp [dictSet, hk, lowerStr_content_length]
      · rw [dictSet, if_neg hk, List.map_cons]
        exact List.mem_cons_of_mem _ ih

/-- When no configured key other than the exact string "content-length"
lower-cases to "content-length", the raw-header lookup finds the value
`init_headers` wrote. -/
theorem dictGet_init_headers (bodyBytes : List UInt8)
    (headers : List (String × String))
    (hclean : ∀ kv ∈ headers,
      lowerStr kv.1 = "content-length" → kv.1 = "content-length") :
    dictGet (init_headers bodyBytes headers) "content-length" =
      some (toString bodyBytes.length) := by
  unfold init_headers
  induction headers with
  | nil => simp [dictSet, dictGet, lowerStr_content_length]
  | cons kv rest ih =>
      by_cases hk : kv.1 = "content-length"
      · simp [dictSet, hk, dictGet, lowerStr_content_length]
      · have hlow : lowerStr kv.1 ≠ "content-length" := fun hcontra =>
          hk (hclean kv (List.mem_cons_self _ _) hcontra)
        rw [dictSet, if_neg hk, List.map_cons, dictGet, if_neg hlow]
        exact ih (fun kv h => hclean kv (List.mem_cons_of_mem _ h))

/-- C8 amended: a body sourced from a literal string with encoding utf-8
renders as the exact UTF-8 bytes of the string; the raw headers of every
rendered response contain a content-length entry equal to the byte
length of the final body, and that entry is the value found under
`content-length` whenever no configured header key other than the exact
string "content-length" lower-cases to "content-length". -/
theorem utf8_body_and_content_length (s : String)
    (fs : String → Option (List UInt8)) (bodyBytes : List UInt8)
    (headers : List (String × String))
    (hclean : ∀ kv ∈ headers,
      lowerStr kv.1 = "content-length" → kv.1 = "content-length") :
    HttpBody.bytes { data := .str s } fs = utf8Bytes s ∧
    ("content-length", toString bodyBytes.length) ∈
      init_headers bodyBytes headers ∧
    dictGet (init_headers bodyBytes headers) "content-length" =
      some (toString bodyBytes.length) := by
  exact ⟨by simp [HttpBody.bytes, encodeStr],
    mem_init_headers bodyBytes headers,
    dictGet_init_headers bodyBytes headers hclean⟩

/-- C8 amended witness: the literal "pong" with utf-8 renders as its
UTF-8 bytes, and a clean configured header set yields a content-length
entry of "4". -/
theorem utf8_body_and_content_length_witness :
    HttpBody.bytes { data := .str "pong" } (fun _ => none) =
      [112, 111, 110, 103] ∧
    dictGet (init_headers [112, 111, 110, 103] [("x-test", "1")])
      "content-length" = some "4" := by
  have h := utf8_body_and_content_length "pong" (fun _ => none)
    [112, 111, 110, 103] [("x-test", "1")] (by decide)
  refine ⟨h.1.trans (by decide), by simpa using h.2.2⟩

/-- C4: a rule that declares a body never fits any request, even one
whose raw body bytes are byte-for-byte equal to the configured body.
Line 44 of `core/process_middleware.py` compares the unawaited coroutine
`request.body()` with the configured bytes, so the inequality holds for
every request; this contradicts the spec's byte-equality predicate, so
the claim records a code bug. -/
theorem declared_body_rule_never_fits :
    (let rule : RequestConfig :=
      { mapping := "/ping", method := .POST,
        body := some { data := .bytes [120] }, response_id := "resp1" }
     let req : InboundRequest :=
      { method := "POST", path := "/api/ping", body_bytes := [120] }
     req.body_bytes =
        HttpBody.bytes { data := .bytes [120] } (fun _ => none) ∧
      is_request_fit req rule { base_url := "http://0.0.0.0:80/api" } =
        false) := by
  exact ⟨by decide, by decide⟩

/-- C2 counterexample: a rule declaring `parameters={"a":"1"}` does not
fit a request carrying `a=1` and an extra `b=2` (the source compares the
declared dict and the full inbound dict for equality, so an extra
inbound parameter prevents the match), although the same rule does fit
the request without the extra parameter.  This falsifies the claim that
extra inbound parameters are ignored. -/
theorem extra_param_prevents_match :
    (let rule : RequestConfig :=
      { mapping := "/ping", method := .GET,
        parameters := some [("a", "1")], response_id := "resp1" }
     let srv : ServerConfig := { base_url := "http://0.0.0.0:80/api" }
     is_request_fit
        { method := "GET", path := "/api/ping",
          query_params := [("a", "1"), ("b", "2")] } rule srv = false ∧
      is_request_fit
        { method := "GET", path := "/api/ping",
          query_params := [("a", "1")] } rule srv = true) := by
  exact ⟨by decide, by decide⟩

/-- C2 amended: for a rule declaring parameters (and no body), once the
method and path checks pass, the rule fits exactly when the inbound
query-parameter dict equals the declared dict — same key set, same
values; extra inbound parameters prevent the match while order is
irrelevant. -/
theorem params_predicate_is_dict_equality (req : InboundRequest)
    (rule : RequestConfig) (srv : ServerConfig)
    (ps : List (String × String))
    (hps : rule.parameters = some ps)
    (hm : req.method = rule.method.value)
    (hp : req.path = srv.base_mapping ++ rule.mapping)
    (hb : rule.body = none) :
    is_request_fit req rule srv =
      dictEq ps (request_params_to_dict req) := by
  unfold is_request_fit
  rw [hps, hm, hp, hb]
  cases h : dictEq ps (request_params_to_dict req) <;> simp [h]

/-- C2 amended witness: a rule declaring `{"a":"1"}` fits the request
with exactly `a=1` (in any order with no extras). -/
theorem params_predicate_is_dict_equality_witness :
    is_request_fit
      { method := "GET", path := "/api/ping", query_params := [("a", "1")] }
      { mapping := "/ping", method := .GET,
        parameters := some [("a", "1")], response_id := "resp1" }
      { base_url := "http://0.0.0.0:80/api" } =
      dictEq [("a", "1")] [("a", "1")] := by
  exact params_predicate_is_dict_equality _ _ _ _ rfl rfl (by decide) rfl

/-- C1 counterexample: `requests_ids` is a pydantic `Set[str]`, so the
rule list a server evaluates is an arbitrary enumeration of that set.
For the declaration order ["r1", "r2"] the enumeration ["r2", "r1"] is a
legitimate set iteration order, and under it the matcher selects the
rule declared second even though both rules fit the request.  This
falsifies the claim that the first-declared rule is always selected. -/
theorem declaration_order_not_preserved :
    (let srv : ServerConfig :=
      { base_url := "http://0.0.0.0:80/api",
        requests_ids := ["r1", "r2"] }
     let r1 : RequestConfig :=
      { mapping := "/ping", method := .GET, response_id := "resp1" }
     let r2 : RequestConfig :=
      { mapping := "/ping", method := .GET, response_id := "resp2" }
     let reqs := [("r1", r1), ("r2", r2)]
     let req : InboundRequest := { method := "GET", path := "/api/ping" }
     IsSetEnumeration srv.requests_ids ["r2", "r1"] ∧
      is_request_fit req r1 srv = true ∧
      is_request_fit req r2 srv = true ∧
      allocateRequest (buildServerRequests ["r2", "r1"] reqs) req srv =
        some r2 ∧
      r2 ≠ r1) := by
  exact ⟨by decide, by decide, by decide, by decide, by decide⟩

/-- C1 amended: the matcher is first-fit with respect to the evaluated
rule list: for any enumeration of the server's request-id set, the rule
selected is exactly the first rule in that enumeration order whose
predicate is satisfied (every rule before it fails to fit).  Declaration
order is not preserved in general, because the evaluated list is built
by iterating the unordered set. -/
theorem first_fit_in_enumeration_order (enum : List String)
    (requests : List (String × RequestConfig)) (req : InboundRequest)
    (srv : ServerConfig) (rc : RequestConfig) :
    allocateRequest (buildServerRequests enum requests) req srv = some rc ↔
      is_request_fit req rc srv = true ∧
      ∃ pre post, buildServerRequests enum requests = pre ++ rc :: post ∧
        ∀ rc' ∈ pre, is_request_fit req rc' srv = false := by
  unfold allocateRequest
  rw [List.find?_eq_some]
  simp [Bool.not_eq_true']

end Cap

